import Mathlib

/-!
Verification development for the payment-receipt pipeline of this repository.

Part A embeds `line_processor_final.py` (field extractor, OCR gateway,
reporting engine).  Part B embeds the Telegram staff/ledger subsystem
(`telebot/extenso/database.py`, `staff_commands.py`, `config.py`).

The field extractor uses Python `re.search` with `IGNORECASE | MULTILINE`.
We embed a small backtracking matcher with Python's semantics for the
pattern fragments actually used by the source: leftmost starting position
wins, alternation branches are tried in source order, character-class
repetitions are greedy with backtracking, and a single capturing group per
pattern.  `MULTILINE` only affects `^`/`$`, which the patterns do not use.
Case-insensitivity is ASCII folding (the Thai characters in the patterns
have no case).
-/

namespace VillagePay

/-- ASCII-decimal digit, `\d` of the source patterns (ASCII suffices for the
texts handled here). -/
def isDigitB (c : Char) : Bool := '0' ≤ c && c ≤ '9'

def isDigit19 (c : Char) : Bool := '1' ≤ c && c ≤ '9'

def isDigit05 (c : Char) : Bool := '0' ≤ c && c ≤ '5'

/-- Python `\s` (ASCII part): space, tab, newline, carriage return, vertical
tab, form feed. -/
def isPySpace (c : Char) : Bool :=
  c == ' ' || c == '\t' || c == '\n' || c == '\r' || c.toNat == 11 || c.toNat == 12

/-- Regular-expression fragment language covering the six source patterns:
case-insensitive literals, greedy counted repetition of a character class,
concatenation, ordered alternation, and one capturing group. -/
inductive RE where
  | lit (s : List Char)
  | cls (p : Char → Bool) (lo : Nat) (hi : Option Nat)
  | cat (a b : RE)
  | alt (a b : RE)
  | grp (r : RE)

/-- Case-insensitive (ASCII-folded) literal match; returns the rest of the
input on success. -/
def litMatch : List Char → List Char → Option (List Char)
  | [], s => some s
  | _ :: _, [] => none
  | l :: ls, c :: cs => if l.toLower == c.toLower then litMatch ls cs else none

/-- Length of the maximal prefix whose characters satisfy `p`. -/
def maxRun (p : Char → Bool) : List Char → Nat
  | [] => 0
  | c :: cs => if p c then maxRun p cs + 1 else 0

/-- Greedy split candidates for `p{lo,hi}` applied to `s`: the suffixes of
`s` after consuming `n` class characters, for `n` from the largest feasible
count down to `lo` (Python's backtracking order). -/
def clsSplits (p : Char → Bool) (lo : Nat) (hi : Option Nat) (s : List Char) :
    List (List Char) :=
  let m := maxRun p s
  let top := match hi with
    | none => m
    | some h => min m h
  if top < lo then []
  else (List.range (top + 1 - lo)).map (fun k => s.drop (top - k))

/-- All ways a fragment can match a prefix of `s`, in Python's backtracking
priority order; each result is the remaining input together with the text
captured by the group, if the group lay inside the consumed part. -/
def RE.run : RE → List Char → List (List Char × Option (List Char))
  | .lit l, s =>
      match litMatch l s with
      | some rest => [(rest, none)]
      | none => []
  | .cls p lo hi, s => (clsSplits p lo hi s).map (fun rest => (rest, none))
  | .cat a b, s =>
      (RE.run a s).flatMap (fun pr =>
        (RE.run b pr.1).map (fun qr => (qr.1, pr.2.orElse (fun _ => qr.2))))
  | .alt a b, s => RE.run a s ++ RE.run b s
  | .grp r, s =>
      (RE.run r s).map (fun pr => (pr.1, some (s.take (s.length - pr.1.length))))

/-- Number of capturing groups in a fragment (Python `match.groups()` length). -/
def RE.numGroups : RE → Nat
  | .lit _ => 0
  | .cls _ _ _ => 0
  | .cat a b => a.numGroups + b.numGroups
  | .alt a b => a.numGroups + b.numGroups
  | .grp r => r.numGroups + 1

/-- A match: the full matched text (`group(0)`) and the capture (`group(1)`). -/
structure REMatch where
  whole : List Char
  group1 : Option (List Char)
deriving DecidableEq

/-- Python `re.search`: the first starting position (scanning left to right)
at which the pattern matches, with the engine's highest-priority match
there. -/
def search (r : RE) : List Char → Option REMatch
  | [] =>
      match RE.run r [] with
      | pr :: _ => some ⟨[], pr.2⟩
      | [] => none
  | c :: t =>
      match RE.run r (c :: t) with
      | pr :: _ => some ⟨(c :: t).take ((c :: t).length - pr.1.length), pr.2⟩
      | [] => search r t

-- Pattern construction helpers.

def chr (c : Char) : RE := .lit [c]

def strLit (s : String) : RE := .lit s.toList

def cls1 (p : Char → Bool) : RE := .cls p 1 (some 1)

def alts : List RE → RE
  | [] => .lit []
  | [r] => r
  | r :: rs => .alt r (alts rs)

def seqs : List RE → RE
  | [] => .lit []
  | [r] => r
  | r :: rs => .cat r (seqs rs)

/-! The six patterns of `_get_regex_patterns`, transcribed fragment by
fragment from the source strings. -/

/-- Pattern `r"88\/(0[1-9]|[1-9][0-9]|1[0-5][0-9]|16[0-5])"` -/
def unitIdRe : RE :=
  .cat (strLit "88/") (.grp (alts [
    .cat (chr '0') (cls1 isDigit19),
    .cat (cls1 isDigit19) (cls1 isDigitB),
    seqs [chr '1', cls1 isDigit05, cls1 isDigitB],
    .cat (strLit "16") (cls1 isDigit05)]))

def isSepChar (c : Char) : Bool := c == '-' || c == '/' || c == '.'

/-- Pattern `r"(\d{4}[-\/.]\d{1,2})"` -/
def feeMonthRe : RE :=
  .grp (seqs [.cls isDigitB 4 (some 4), cls1 isSepChar, .cls isDigitB 1 (some 2)])

def isLocalChar (c : Char) : Bool :=
  c.isAlpha || isDigitB c || c == '.' || c == '_' || c == '%' || c == '+' || c == '-'

def isDomChar (c : Char) : Bool := c.isAlpha || isDigitB c || c == '.' || c == '-'

/-- Pattern `r"([a-zA-Z0-9._%+-]+@[a-zA-Z0-9.-]+\.[a-zA-Z]{2,})"` -/
def emailRe : RE :=
  .grp (seqs [.cls isLocalChar 1 none, chr '@', .cls isDomChar 1 none,
              chr '.', .cls Char.isAlpha 2 none])

def isCommaDigit (c : Char) : Bool := c == ',' || isDigitB c

def isDotChar (c : Char) : Bool := c == '.'

/-- Pattern `r"([,\d]+\.?\d*)\s*(?:baht|บาท|total|amount|฿|ยอด|รวม|จำนวนเงิน)"` -/
def amountRe : RE :=
  .cat (.grp (seqs [.cls isCommaDigit 1 none, .cls isDotChar 0 (some 1),
                    .cls isDigitB 0 none]))
       (.cat (.cls isPySpace 0 none)
             (alts [strLit "baht", strLit "บาท", strLit "total", strLit "amount",
                    strLit "฿", strLit "ยอด", strLit "รวม", strLit "จำนวนเงิน"]))

/-- Class `[A-Z0-9\-\s]` under `IGNORECASE` (so lowercase letters match too). -/
def isTidChar (c : Char) : Bool :=
  ('A' ≤ c && c ≤ 'Z') || ('a' ≤ c && c ≤ 'z') || isDigitB c || c == '-' || isPySpace c

/-- Pattern `r"(?:txn\s*id|transaction\s*id|ref\.?\s*no|เลขที่อ้างอิง|เลขที่รายการ):?\s*([A-Z0-9\-\s]+)"` -/
def transactionIdRe : RE :=
  seqs [alts [
          seqs [strLit "txn", .cls isPySpace 0 none, strLit "id"],
          seqs [strLit "transaction", .cls isPySpace 0 none, strLit "id"],
          seqs [strLit "ref", .cls isDotChar 0 (some 1), .cls isPySpace 0 none,
                strLit "no"],
          strLit "เลขที่อ้างอิง", strLit "เลขที่รายการ"],
        .cls (fun c => c == ':') 0 (some 1),
        .cls isPySpace 0 none,
        .grp (.cls isTidChar 1 none)]

/-- Class `[ก-๙a-zA-Z\s\.]`: the Thai block run from ก (U+0E01) to ๙ (U+0E59),
Latin letters, whitespace and the dot. -/
def isNameChar (c : Char) : Bool :=
  (0xE01 ≤ c.toNat && c.toNat ≤ 0xE59) || c.isAlpha || isPySpace c || c == '.'

/-- Pattern `r"(?:sender|from|ผู้โอน|ชื่อ):\s*([ก-๙a-zA-Z\s\.]+)"` -/
def payerNameRe : RE :=
  seqs [alts [strLit "sender", strLit "from", strLit "ผู้โอน", strLit "ชื่อ"],
        chr ':', .cls isPySpace 0 none, .grp (.cls isNameChar 1 none)]

inductive PatternKey where
  | unitId | feeMonth | email | amount | transactionId | payerName
deriving DecidableEq

def patternOf : PatternKey → RE
  | .unitId => unitIdRe
  | .feeMonth => feeMonthRe
  | .email => emailRe
  | .amount => amountRe
  | .transactionId => transactionIdRe
  | .payerName => payerNameRe

/-- Python `str.strip()` restricted to whitespace. -/
def stripL : List Char → List Char
  | [] => []
  | c :: t => if isPySpace c then stripL t else c :: t

def strip (s : List Char) : List Char := ((stripL s).reverse |> stripL).reverse

def digitsVal (ds : List Char) : Nat :=
  ds.foldl (fun a c => a * 10 + (c.toNat - '0'.toNat)) 0

/-- The value parsed by Python `float()` from a decimal digit string,
kept exactly as mantissa and number of fraction digits (the value is
`mant / 10 ^ fracLen`).  The source never compares or adds these floats —
it only tests them against `None`, stores them, and formats them — so the
exact-decimal representation is a faithful model (and is exact on the
inputs that occur, where binary floating point would already round). -/
structure PyFloat where
  mant : Nat
  fracLen : Nat
deriving DecidableEq

/-- Rational value of a parsed amount. -/
def PyFloat.toRat (f : PyFloat) : ℚ := (f.mant : ℚ) / (10 : ℚ) ^ f.fracLen

/-- Python `float()` on the strings producible by the amount pattern after
comma removal: digit runs with at most one decimal point.  `none` where
`float()` raises `ValueError` (which `_match_pattern` turns into `None`). -/
def parsePyFloat (s : List Char) : Option PyFloat :=
  let ip := s.takeWhile isDigitB
  let rest := s.dropWhile isDigitB
  match rest with
  | [] => if ip.isEmpty then none else some ⟨digitsVal ip, 0⟩
  | '.' :: fp =>
      if fp.all isDigitB && !(ip.isEmpty && fp.isEmpty) then
        some ⟨digitsVal ip * 10 ^ fp.length + digitsVal fp, fp.length⟩
      else none
  | _ => none

/-- Result type of `_match_pattern`: a float for the amount key, a string
otherwise, `None` when nothing matched. -/
inductive PValue where
  | num (q : PyFloat)
  | str (s : List Char)
deriving DecidableEq

/-- Embedding of `_match_pattern` from `line_processor_final.py`: search the keyed pattern,
then for `amount` strip commas and parse as a float; for `payer_name`
return `group(1)` only when the match has more than one capture group —
the pattern has exactly one, so `group(0)` is returned; otherwise return
`group(1)`.  All results are stripped. -/
def matchPattern (text : List Char) (key : PatternKey) : Option PValue :=
  match search (patternOf key) text with
  | none => none
  | some m =>
      match key with
      | .amount =>
          match m.group1 with
          | some g => (parsePyFloat (strip (g.filter (fun c => c != ',')))).map .num
          | none => none
      | .payerName =>
          if (patternOf key).numGroups > 1 then m.group1.map (fun g => .str (strip g))
          else some (.str (strip m.whole))
      | _ => m.group1.map (fun g => .str (strip g))

def strOf : Option PValue → Option String
  | some (.str s) => some (String.mk s)
  | _ => none

def numOf : Option PValue → Option PyFloat
  | some (.num q) => some q
  | _ => none

/-- Result of `_extract_receipt_data`. -/
structure ExtractedData where
  amount : Option PyFloat
  transaction_id : Option String
  payer_name : Option String
  success : Bool
deriving DecidableEq

/-- Embedding of `_extract_receipt_data`: clean the OCR text (newlines to spaces, strip),
match the three OCR patterns; success requires both amount and
transaction id. -/
def extractReceiptData (ocr : String) : ExtractedData :=
  let t := strip (ocr.toList.map (fun c => if c == '\n' then ' ' else c))
  let am := numOf (matchPattern t .amount)
  let tid := strOf (matchPattern t .transactionId)
  let pn := strOf (matchPattern t .payerName)
  { amount := am, transaction_id := tid, payer_name := pn,
    success := am.isSome && tid.isSome }

/-- Embedding of `_generate_valid_units`: `88/01` … `88/165` (`f"88/{i:02d}"`). -/
def pad2 (i : Nat) : String := if i < 10 then "0" ++ toString i else toString i

def validUnits : List String := (List.range 165).map (fun i => "88/" ++ pad2 (i + 1))

/-- The Firestore record built by `handle_image_message` (the creation-time
clock value is passed in as `now`). -/
structure PaymentRecord where
  unit_id : String
  fee_month : String
  email : String
  amount : Option PyFloat
  transaction_id : Option String
  payer_name : Option String
  timestamp : Nat
  status : String
  source_text : String
  ocr_status : String
deriving DecidableEq

/-- Steps 2–5 of `handle_image_message`: extract caption fields, extract the
financial data from the OCR text, classify, and build the record that is
saved to the payments collection. -/
def handleImageMessage (caption ocr : String) (now : Nat) : PaymentRecord :=
  let unit_id := strOf (matchPattern caption.toList .unitId)
  let fee_month := strOf (matchPattern caption.toList .feeMonth)
  let email := strOf (matchPattern caption.toList .email)
  let ed := extractReceiptData ocr
  let isUnitValid := match unit_id with
    | some u => validUnits.contains u
    | none => false
  let isComplete := isUnitValid && fee_month.isSome && ed.success
  { unit_id := if isUnitValid then unit_id.getD "N/A" else "N/A",
    fee_month := fee_month.getD "N/A",
    email := email.getD "N/A",
    amount := ed.amount,
    transaction_id := ed.transaction_id,
    payer_name := ed.payer_name,
    timestamp := now,
    status := if isComplete then "COMPLETED" else "PENDING_ADMIN_REVIEW",
    source_text := caption,
    ocr_status := if ed.success then "SUCCESS" else "FAILED" }

/-! ## OCR Gateway — `_image_to_text`

The Gemini call is the external collaborator; each HTTP attempt's outcome
is an input to the embedded retry loop. -/

/-- Outcome of one HTTP attempt: a transport or non-2xx failure (`requests`
raises, caught as `RequestException`), or a well-formed response whose
extracted text field may be empty. -/
inductive OcrAttempt where
  | err
  | ok (text : String)
deriving DecidableEq

/-- What one `_image_to_text` call did: the returned string, the sequence of
`time.sleep` delays performed between attempts, and how many HTTP attempts
were made. -/
structure OcrRun where
  result : String
  sleeps : List Nat
  attempts : Nat
deriving DecidableEq

/-- The retry loop body of `_image_to_text` over the remaining attempt
outcomes.  On a well-formed response with non-empty text, return it; with
empty text, retry immediately (no sleep, delay unchanged).  On a request
failure with attempts remaining (`i < max_retries - 1`), sleep `delay`,
double it and retry; on the last attempt, return the `"OCR_FAILED"`
sentinel.  Falling out of the loop also returns `"OCR_FAILED"`. -/
def ocrGo : List OcrAttempt → Nat → OcrRun
  | [], _ => ⟨"OCR_FAILED", [], 0⟩
  | a :: rest, delay =>
      match a with
      | .ok t =>
          if t ≠ "" then ⟨t, [], 1⟩
          else
            let r := ocrGo rest delay
            ⟨r.result, r.sleeps, r.attempts + 1⟩
      | .err =>
          if rest.isEmpty then ⟨"OCR_FAILED", [], 1⟩
          else
            let r := ocrGo rest (delay * 2)
            ⟨r.result, delay :: r.sleeps, r.attempts + 1⟩

/-- Constant `max_retries = 3` in `_image_to_text`. -/
def maxOcrRetries : Nat := 3

/-- Constant `delay = 2` in `_image_to_text`. -/
def initialOcrDelay : Nat := 2

/-- Embedding of `_image_to_text`: run the retry loop over at most `max_retries` attempt
outcomes with the initial backoff delay. -/
def imageToText (outcomes : List OcrAttempt) : OcrRun :=
  ocrGo (outcomes.take maxOcrRetries) initialOcrDelay

/-- An attempt that does not produce text: a request failure, or a
well-formed response with an empty text field. -/
def badAttempt : OcrAttempt → Prop
  | .err => True
  | .ok t => t = ""

instance : DecidablePred badAttempt := fun a => by
  cases a <;> simp [badAttempt] <;> infer_instance

/-! ## Reporting engine — `create_report_csv`, `send_report_email`,
`run_scheduled_report` -/

/-- Comparison used for the report query order. -/
def byTimestamp (a b : PaymentRecord) : Prop := a.timestamp ≤ b.timestamp

instance : DecidableRel byTimestamp := fun a b => Nat.decLe a.timestamp b.timestamp

instance : IsTotal PaymentRecord byTimestamp :=
  ⟨fun a b => Nat.le_total a.timestamp b.timestamp⟩

instance : IsTrans PaymentRecord byTimestamp :=
  ⟨fun _ _ _ => Nat.le_trans⟩

/-- The Firestore query of `run_scheduled_report`:
`where('status','==','COMPLETED').where('timestamp','>',t).stream()` —
documents satisfying both filters; a query with a range filter returns its
results ordered by the range field ascending (Firestore semantics; the
order among equal timestamps is not specified and is modelled stably). -/
def queryCompletedSince (store : List PaymentRecord) (t : Nat) : List PaymentRecord :=
  List.insertionSort byTimestamp
    (store.filter (fun r => r.status == "COMPLETED" && decide (t < r.timestamp)))

/-- The `fieldnames` list of `create_report_csv`. -/
def reportFieldnames : List String :=
  ["timestamp", "unit_id", "fee_month", "amount",
   "transaction_id", "payer_name", "email", "status",
   "source_text", "ocr_status"]

/-- Rendering `strftime("%Y-%m-%d %H:%M:%S")` on the model clock, abstracted as a
numeric rendering (the claims only compare whole cells and subjects). -/
def formatTimestamp (t : Nat) : String := toString t

/-- Rendering `strftime("%Y-%m-%d")` on the model clock, abstracted likewise. -/
def formatDate (t : Nat) : String := "date " ++ toString t

/-- Rendering `str()` of an optional stored string (the csv writer renders `None` as
an empty cell). -/
def optCell : Option String → String
  | none => ""
  | some s => s

/-- Rendering of the stored float amount; opaque exact-decimal form. -/
def amountCell : Option PyFloat → String
  | none => ""
  | some f => toString f.mant ++ "e-" ++ toString f.fracLen

/-- One CSV data row, cells in `fieldnames` order (`csv.DictWriter`). -/
def rowCells (r : PaymentRecord) : List String :=
  [formatTimestamp r.timestamp, r.unit_id, r.fee_month, amountCell r.amount,
   optCell r.transaction_id, optCell r.payer_name, r.email, r.status,
   r.source_text, r.ocr_status]

/-- Embedding of `create_report_csv`: `(None, 0)` on an empty payment list, otherwise the
header row followed by one row per payment, and the row count. -/
def createReportCsv (ps : List PaymentRecord) : Option (List (List String)) × Nat :=
  if ps.isEmpty then (none, 0)
  else (some (reportFieldnames :: ps.map rowCells), ps.length)

/-- The message `send_report_email` constructs and hands to SMTP (delivery
is the external collaborator). -/
structure ReportEmail where
  recipient : String
  subject : String
  body : String
  attachment : List (List String)
deriving DecidableEq

/-- Embedding of `send_report_email`: the subject names the row count and the end date;
the local `subject_time_range` computed in the source is never used in the
subject — the start/end range appears only in the body text. -/
def sendReportEmail (csvData : List (List String)) (recipient : String)
    (startTime endTime : Nat) (count : Nat) : ReportEmail :=
  { recipient := recipient,
    subject := "Payment Report: " ++ toString count ++ " New Transactions ("
               ++ formatDate endTime ++ ")",
    body := "Attached is the CSV report containing " ++ toString count
            ++ " new COMPLETED payment records processed by the LINE OA system between "
            ++ formatTimestamp startTime ++ " and " ++ formatTimestamp endTime
            ++ ".\n\nThis report includes payments that were automatically processed"
            ++ " and those manually marked as COMPLETED by an admin (if applicable).",
    attachment := csvData }

/-- The report-relevant persistent state: the payments collection and the
`settings/report.last_report_time` watermark. -/
structure ReportState where
  store : List PaymentRecord
  lastReportTime : Nat
deriving DecidableEq

/-- Embedding of `run_scheduled_report`: read the watermark `T0`, capture
`report_end_time = now()` (at the start of the run), query COMPLETED
payments strictly newer than `T0`, build the CSV, email it only when rows
exist (and `send_report_email` only proceeds when the SMTP credentials are
configured, modelled by `credsOk`), then advance the watermark to the
captured time — unless the database query raised, in which case the
function returns early and the watermark is untouched (`queryOk` models
whether the query succeeded). -/
def runScheduledReport (st : ReportState) (now : Nat) (queryOk credsOk : Bool)
    (recipient : String) : ReportState × Option ReportEmail :=
  let t0 := st.lastReportTime
  if queryOk then
    let ps := queryCompletedSince st.store t0
    let pair := createReportCsv ps
    let email := match pair.1 with
      | some csv =>
          if 0 < pair.2 && credsOk then
            some (sendReportEmail csv recipient t0 now pair.2)
          else none
      | none => none
    ({ st with lastReportTime := now }, email)
  else (st, none)

/-- The watermark after each run of a sequence of report runs; each entry of
the run list is the clock value at the run's start and the two outcome
flags (query succeeded, credentials present). -/
def watermarks (recipient : String) :
    ReportState → List (Nat × Bool × Bool) → List Nat
  | _, [] => []
  | st, r :: rest =>
      let st2 := (runScheduledReport st r.1 r.2.1 r.2.2 recipient).1
      st2.lastReportTime :: watermarks recipient st2 rest

/-! ## Part B: the Telegram staff/ledger subsystem (`telebot/extenso`)

`database.py` over SQLite, `config.py` permissions, and the staff review
handlers of `staff_commands.py`.  SQLite rows are modelled as structures;
the tables as lists in insertion order; `CURRENT_TIMESTAMP` defaults and
`datetime.now()` strings are passed in as parameters. -/

/-- A row of the `residents` table. -/
structure ResidentRow where
  id : Nat
  unit : String
  owner_name : String
  telegram_id : Option Int
  telegram_name : Option String
  current_balance : Int
  monthly_charge : Int
  last_payment_date : Option String
  language : String
deriving DecidableEq

/-- A row of the `payments` table.  `created_at` (`TEXT DEFAULT
CURRENT_TIMESTAMP`) is modelled as a numeric clock value for ordering. -/
structure PaymentRow where
  id : Nat
  unit : String
  amount : Int
  reference : Option String
  receipt_filename : String
  telegram_user_id : Int
  language : String
  status : String
  verified_by : Option String
  verification_date : Option String
  created_at : Nat
deriving DecidableEq

/-- The SQLite database state (`extenso_village.db`); `nextPaymentId` is the
AUTOINCREMENT counter of `payments`. -/
structure VillageDb where
  residents : List ResidentRow
  payments : List PaymentRow
  nextPaymentId : Nat
deriving DecidableEq

/-- Embedding of `add_payment`: INSERT naming only unit, amount, reference,
receipt_filename, telegram_user_id and language; `status`, `verified_by`
and `verification_date` take their table defaults `'pending'`, NULL, NULL;
returns `lastrowid`. -/
def addPayment (db : VillageDb) (unit : String) (amount : Int)
    (reference : Option String) (receiptFilename : String)
    (telegramUserId : Int) (language : String) (now : Nat) : VillageDb × Nat :=
  let row : PaymentRow :=
    { id := db.nextPaymentId, unit := unit, amount := amount,
      reference := reference, receipt_filename := receiptFilename,
      telegram_user_id := telegramUserId, language := language,
      status := "pending", verified_by := none, verification_date := none,
      created_at := now }
  ({ db with payments := db.payments ++ [row],
             nextPaymentId := db.nextPaymentId + 1 },
   db.nextPaymentId)

/-- Ordering used by `ORDER BY created_at ASC`. -/
def byCreatedAt (a b : PaymentRow) : Prop := a.created_at ≤ b.created_at

instance : DecidableRel byCreatedAt := fun a b => Nat.decLe a.created_at b.created_at

/-- Embedding of `get_pending_payments`: all rows with status `'pending'`, ordered by
`created_at` ascending (stable among equal timestamps). -/
def getPendingPayments (db : VillageDb) : List PaymentRow :=
  List.insertionSort byCreatedAt (db.payments.filter (fun p => p.status == "pending"))

/-- The columns selected by `get_payment_by_id` — note that `status` is not
among them. -/
structure PaymentColumns where
  id : Nat
  unit : String
  amount : Int
  reference : Option String
  receipt_filename : String
  telegram_user_id : Int
  language : String
deriving DecidableEq

/-- Embedding of `get_payment_by_id`: `SELECT id, unit, amount, reference,
receipt_filename, telegram_user_id, language FROM payments WHERE id = ?`. -/
def getPaymentById (db : VillageDb) (paymentId : Nat) : Option PaymentColumns :=
  (db.payments.find? (fun p => p.id == paymentId)).map
    (fun p => { id := p.id, unit := p.unit, amount := p.amount,
                reference := p.reference,
                receipt_filename := p.receipt_filename,
                telegram_user_id := p.telegram_user_id,
                language := p.language })

/-- Embedding of `update_payment_status`: look up the payment's unit and amount, then
unconditionally overwrite `status`, `verified_by` and `verification_date`
(there is no check of the record's current status), and — only when the
new status is `'verified'` — add the amount to the matching resident's
`current_balance` and set `last_payment_date`.  Returns `False` when the
id is unknown. -/
def updatePaymentStatus (db : VillageDb) (paymentId : Nat) (status : String)
    (verifiedBy : String) (nowDateTime nowDate : String) : VillageDb × Bool :=
  match db.payments.find? (fun p => p.id == paymentId) with
  | none => (db, false)
  | some payment =>
      let payments := db.payments.map (fun p =>
        if p.id == paymentId then
          { p with status := status, verified_by := some verifiedBy,
                   verification_date := some nowDateTime }
        else p)
      let residents :=
        if status == "verified" then
          db.residents.map (fun r =>
            if r.unit == payment.unit then
              { r with current_balance := r.current_balance + payment.amount,
                       last_payment_date := some nowDate }
            else r)
        else db.residents
      ({ db with payments := payments, residents := residents }, true)

/-- Embedding of the `config.py` staff configuration (the id lists parsed from the
environment). -/
structure BotConfig where
  adminIds : List Int
  operatorIds : List Int
  thaiStaffIds : List Int
  englishStaffIds : List Int
deriving DecidableEq

/-- Embedding of `Permissions.is_admin`. -/
def isAdmin (cfg : BotConfig) (userId : Int) : Bool := cfg.adminIds.contains userId

/-- Embedding of `Permissions.is_operator`: operator or admin. -/
def isOperator (cfg : BotConfig) (userId : Int) : Bool :=
  cfg.operatorIds.contains userId || cfg.adminIds.contains userId

/-- ASCII apostrophe, used in the literal fallback text of
`Messages.get_message`. -/
def apos : String := String.singleton (Char.ofNat 39)

/-- The `messages.py` table restricted to the keys the embedded handlers
request and that actually exist there.  The keys the review flow asks for
— `no_pending_payments`, `pending_payments_count`, `payment_review_item`,
`payment_not_found`, `already_processed`,
`payment_verified_resident_notify`, `payment_rejected_resident_notify`,
`payment_verified_confirmation`, `payment_rejected_confirmation` — are
absent from the table in `messages.py`. -/
def messageTable (key lang : String) : Option String :=
  if key == "staff_access_required" then
    some (if lang == "th" then "❌ ต้องการการเข้าถึงผู้ปฏิบัติงาน"
          else "❌ Operator access required")
  else if key == "admin_access_required" then
    some (if lang == "th" then "❌ ต้องการการเข้าถึงผู้ดูแลระบบ"
          else "❌ Administrator access required")
  else none

/-- Embedding of `Messages.get_message`: table lookup with fallback to the literal
`Error: Message key '<key>' not found.` string for unknown keys.  The
keyword-substitution pass is the identity on the strings reachable here
(the fallback text contains no placeholders). -/
def getMessage (key lang : String) : String :=
  match messageTable key lang with
  | some m => m
  | none => "Error: Message key " ++ apos ++ key ++ apos ++ " not found."

/-- Observable actions of a handler towards Telegram. -/
inductive Effect where
  | reply (text : String)
  | answerQuery
  | editMessage (text : String)
  | sendMessage (chatId : Int) (text : String)
deriving DecidableEq

/-- Uncaught Python exceptions surfaced by a handler. -/
inductive PyError where
  | attributeError (attr : String)
deriving DecidableEq

/-- Embedding of `Permissions.require_operator`: when the caller does not hold operator
or admin privilege, reply with the `staff_access_required` message (Thai
for configured Thai staff, English otherwise) and stop without invoking
the wrapped handler; otherwise run it.  Delivery of the reply is modelled
as an effect. -/
def requireOperator (cfg : BotConfig) (userId : Int) (db : VillageDb)
    (body : Unit → Except PyError (VillageDb × List Effect)) :
    Except PyError (VillageDb × List Effect) :=
  if !(isOperator cfg userId) then
    let lang := if cfg.thaiStaffIds.contains userId then "th" else "en"
    .ok (db, [.reply (getMessage "staff_access_required" lang)])
  else body ()

/-- Embedding of `BilingualStaffCommands.get_user_language`. -/
def getUserLanguage (cfg : BotConfig) (userId : Int) : String :=
  if cfg.thaiStaffIds.contains userId then "th"
  else if cfg.adminIds.contains userId || cfg.englishStaffIds.contains userId then "en"
  else "th"

/-- Embedding of `list_pending_payments` (decorated with `require_operator`): fetch the
pending rows; with none, one reply; otherwise a count header followed by
one review message per payment.  All three message keys are absent from
`messages.py`, so every reply text is the corresponding fallback string
and the keyword arguments (`count`, `id`, `unit`, `amount`, `reference`)
do not appear in it. -/
def listPendingPayments (cfg : BotConfig) (db : VillageDb) (userId : Int) :
    Except PyError (VillageDb × List Effect) :=
  requireOperator cfg userId db (fun _ =>
    let lang := getUserLanguage cfg userId
    let pending := getPendingPayments db
    if pending.isEmpty then
      .ok (db, [.reply (getMessage "no_pending_payments" lang)])
    else
      .ok (db, .reply (getMessage "pending_payments_count" lang) ::
        pending.map (fun _ => .reply (getMessage "payment_review_item" lang))))

/-- Embedding of `handle_payment_callback` (decorated with `require_operator`): after
answering the callback query and parsing `action_paymentid` from the
callback data, the handler evaluates `db.get_payment_details(payment_id)`.
The `Database` class of `database.py` defines no attribute
`get_payment_details` (only `get_payment_by_id`), so every authorized
invocation raises `AttributeError` at this line; the status guard and the
receipt/approve/reject branches that follow in the source are unreachable
(and the guard itself reads `payment['status']`, a column
`get_payment_by_id` does not even select). -/
def handlePaymentCallback (cfg : BotConfig) (db : VillageDb) (userId : Int)
    (_staffName : String) (_data : String) : Except PyError (VillageDb × List Effect) :=
  requireOperator cfg userId db (fun _ =>
    .error (.attributeError "get_payment_details"))

/-! ## Concrete instances used by closed theorems -/

/-- Caption of the specification's worked scenario. -/
def scenarioCaption : String := "Unit 88/07, 2025-11, owner@x.com"

/-- OCR text of the specification's worked scenario. -/
def scenarioOcr : String :=
  "... Total 1,500.00 Baht ... Ref No: ABC123 ... From: Somsak Wong ..."

/-- The record `handle_image_message` builds for the scenario inputs. -/
def scenarioRecord : PaymentRecord := handleImageMessage scenarioCaption scenarioOcr 0

/-- A resident row with zero balance for concrete ledger runs. -/
def demoResident : ResidentRow :=
  { id := 1, unit := "88/01", owner_name := "Owner", telegram_id := some 99,
    telegram_name := some "own", current_balance := 0, monthly_charge := 50000,
    last_payment_date := none, language := "en" }

/-- A pending payment of 100000 satang for unit 88/01. -/
def demoPayment : PaymentRow :=
  { id := 1, unit := "88/01", amount := 100000, reference := some "REF1",
    receipt_filename := "r.jpg", telegram_user_id := 99, language := "en",
    status := "pending", verified_by := none, verification_date := none,
    created_at := 0 }

/-- A one-resident, one-pending-payment database. -/
def demoDb : VillageDb :=
  { residents := [demoResident], payments := [demoPayment], nextPaymentId := 2 }

/-- A configuration in which user 7 is an operator. -/
def opCfg : BotConfig :=
  { adminIds := [], operatorIds := [7], thaiStaffIds := [], englishStaffIds := [] }

/-- A configuration with no staff at all. -/
def noOpCfg : BotConfig :=
  { adminIds := [], operatorIds := [], thaiStaffIds := [], englishStaffIds := [] }

/-- An empty ledger database. -/
def emptyDb : VillageDb := { residents := [], payments := [], nextPaymentId := 1 }

/-- The row `add_payment` inserts for the witness inputs below. -/
def row0 : PaymentRow :=
  { id := 1, unit := "88/02", amount := 5000, reference := none,
    receipt_filename := "x.jpg", telegram_user_id := 3, language := "en",
    status := "pending", verified_by := none, verification_date := none,
    created_at := 4 }

/-- A VERIFIED submission newer than the watermark. -/
def verifiedRecord : PaymentRecord :=
  { unit_id := "88/01", fee_month := "2025-10", email := "a@b.co",
    amount := some ⟨250000, 2⟩, transaction_id := some "TID9",
    payer_name := some "A", timestamp := 5, status := "VERIFIED",
    source_text := "cap", ocr_status := "SUCCESS" }

/-- A COMPLETED submission newer than the watermark. -/
def completedRecord : PaymentRecord :=
  { unit_id := "88/02", fee_month := "2025-10", email := "c@d.co",
    amount := some ⟨150000, 2⟩, transaction_id := some "TID1",
    payer_name := some "B", timestamp := 6, status := "COMPLETED",
    source_text := "cap2", ocr_status := "SUCCESS" }

/-- Report state holding one COMPLETED submission past the watermark. -/
def demoReportState : ReportState := { store := [completedRecord], lastReportTime := 3 }

/-- The eight header columns the specification prescribes for the report CSV
(spec wording, kept for comparison against `reportFieldnames`). -/
def specReportHeader : List String :=
  ["timestamp", "unit_id", "fee_period", "amount", "transaction_reference",
   "payer_name", "email", "status"]

/-! ## Helper lemmas -/

set_option maxRecDepth 100000

/-- Classification of the two status strings by the completeness flag. -/
theorem statusIff : ∀ a b c : Bool,
    ((if a && b && c then "COMPLETED" else "PENDING_ADMIN_REVIEW") = "COMPLETED"
      ↔ (a = true ∧ b = true ∧ c = true)) := by decide

/-- The retry loop makes at most one HTTP attempt per remaining outcome. -/
theorem ocrGo_attempts_le (l : List OcrAttempt) (d : Nat) :
    (ocrGo l d).attempts ≤ l.length := by
  induction l generalizing d with
  | nil => simp [ocrGo]
  | cons a rest ih =>
    cases a with
    | ok t =>
      by_cases ht : t = ""
      · simp only [ocrGo, ht, ne_eq, not_true_eq_false, if_false, List.length_cons]
        exact Nat.succ_le_succ (ih d)
      · simp [ocrGo, ht]
    | err =>
      by_cases hr : rest.isEmpty
      · simp [ocrGo, hr]
      · simp only [ocrGo, hr, if_false, List.length_cons]
        exact Nat.succ_le_succ (ih (d * 2))

/-- The sleeps the retry loop performs are the leading terms of the
geometric sequence `d, 2d, 4d, …`: each inter-attempt delay is double the
previous one. -/
theorem ocrGo_sleeps_doubling (l : List OcrAttempt) (d : Nat) :
    ∃ k, (ocrGo l d).sleeps = (List.range k).map (fun j => d * 2 ^ j) := by
  induction l generalizing d with
  | nil => exact ⟨0, by simp [ocrGo]⟩
  | cons a rest ih =>
    cases a with
    | ok t =>
      by_cases ht : t = ""
      · obtain ⟨k, hk⟩ := ih d
        exact ⟨k, by simp only [ocrGo, ht, ne_eq, not_true_eq_false, if_false]; exact hk⟩
      · exact ⟨0, by simp [ocrGo, ht]⟩
    | err =>
      by_cases hr : rest.isEmpty
      · exact ⟨0, by simp [ocrGo, hr]⟩
      · obtain ⟨k, hk⟩ := ih (d * 2)
        refine ⟨k + 1, ?_⟩
        simp only [ocrGo, hr, if_false]
        rw [hk, List.range_succ_eq_map, List.map_cons, List.map_map]
        refine congrArg₂ List.cons (by ring) (List.map_congr_left ?_)
        intro j _
        simp [Function.comp, pow_succ]
        ring

/-- When every attempt fails or yields empty text, the loop returns the
failure sentinel. -/
theorem ocrGo_all_bad (l : List OcrAttempt) (d : Nat)
    (h : ∀ a ∈ l, badAttempt a) : (ocrGo l d).result = "OCR_FAILED" := by
  induction l generalizing d with
  | nil => simp [ocrGo]
  | cons a rest ih =>
    have ha := h a (by simp)
    have hrest : ∀ x ∈ rest, badAttempt x := fun x hx => h x (by simp [hx])
    cases a with
    | ok t =>
      have ht : t = "" := ha
      simp only [ocrGo, ht, ne_eq, not_true_eq_false, if_false]
      exact ih d hrest
    | err =>
      by_cases hr : rest.isEmpty
      · simp [ocrGo, hr]
      · simp only [ocrGo, hr, if_false]
        exact ih (d * 2) hrest

/-- Weakening the head of a non-decreasing chain. -/
theorem chainLeWeaken {a b : Nat} {l : List Nat}
    (h : List.Chain (· ≤ ·) a l) (hba : b ≤ a) : List.Chain (· ≤ ·) b l := by
  cases h with
  | nil => exact .nil
  | cons hax h2 => exact .cons (le_trans hba hax) h2

/-- A run whose query succeeds sets the watermark to the captured time. -/
theorem runScheduledReport_wm_true (st : ReportState) (now : Nat) (c : Bool)
    (r : String) : (runScheduledReport st now true c r).1.lastReportTime = now := rfl

/-- A run whose query raises leaves the state untouched. -/
theorem runScheduledReport_wm_false (st : ReportState) (now : Nat) (c : Bool)
    (r : String) : (runScheduledReport st now false c r).1 = st := rfl

/-- With a monotonic clock the watermark trace of any run sequence is
non-decreasing. -/
theorem watermarks_chain (rcpt : String) (runs : List (Nat × Bool × Bool)) :
    ∀ st : ReportState,
      List.Chain (· ≤ ·) st.lastReportTime (runs.map (fun r => r.1)) →
      List.Chain (· ≤ ·) st.lastReportTime (watermarks rcpt st runs) := by
  induction runs with
  | nil => intro st _; exact .nil
  | cons r rest ih =>
    intro st h
    obtain ⟨now, qok, cok⟩ := r
    rw [List.map_cons] at h
    cases h with
    | cons h1 h2 =>
      simp only [watermarks]
      cases qok with
      | true =>
        refine List.Chain.cons (show st.lastReportTime ≤
          (runScheduledReport st now true cok rcpt).1.lastReportTime from ?_) ?_
        · rw [runScheduledReport_wm_true]; exact h1
        · exact ih _ (by rw [runScheduledReport_wm_true]; exact h2)
      | false =>
        rw [runScheduledReport_wm_false]
        exact List.Chain.cons le_rfl (ih st (chainLeWeaken h2 h1))

/-! ## Claim theorems -/

/-- C1: on the scenario caption and OCR text, the extractor does NOT produce
the claimed record.  The unit pattern's capture group excludes the `88/`
prefix, so `_match_pattern` yields `"07"`, which never belongs to
`valid_units`; the stored record has `unit_id = "N/A"` and status
`PENDING_ADMIN_REVIEW`, not `COMPLETED`.  The amount is the float
`1500.00` baht (value 1500, not 150000 minor units), and `payer_name` is
`group(0)` — `"From: Somsak Wong ..."` — because the pattern has a single
group while the code tests for more than one.  `fee_period`, `email` and
`transaction_reference` come out as claimed. -/
theorem scenario_receipt_extraction :
    strOf (matchPattern scenarioCaption.toList .unitId) = some "07"
    ∧ scenarioRecord.unit_id = "N/A"
    ∧ scenarioRecord.fee_month = "2025-11"
    ∧ scenarioRecord.email = "owner@x.com"
    ∧ scenarioRecord.amount = some ⟨150000, 2⟩
    ∧ PyFloat.toRat ⟨150000, 2⟩ = 1500
    ∧ scenarioRecord.transaction_id = some "ABC123"
    ∧ scenarioRecord.payer_name = some "From: Somsak Wong ..."
    ∧ scenarioRecord.status = "PENDING_ADMIN_REVIEW"
    ∧ scenarioRecord.status ≠ "COMPLETED" :=
  ⟨by decide, by decide, by decide, by decide, by decide,
   by norm_num [PyFloat.toRat], by decide, by decide, by decide, by decide⟩

/-- C2: a second resolve call does not return an already-resolved error and
does not leave the balance unchanged.  `update_payment_status` never
checks the current status, so resolving payment 1 to `verified` twice
credits the resident twice (0 → 100000 → 200000); and the staff callback
that was meant to guard this crashes with `AttributeError` because it
calls the nonexistent `db.get_payment_details`. -/
theorem double_resolve_double_credits :
    (((updatePaymentStatus demoDb 1 "verified" "Alice" "t1" "d1").1).residents.map
        (fun r => r.current_balance) = [100000]
     ∧ (((updatePaymentStatus demoDb 1 "verified" "Alice" "t1" "d1").1).payments.map
        (fun p => p.status) = ["verified"])
     ∧ ((updatePaymentStatus
          (updatePaymentStatus demoDb 1 "verified" "Alice" "t1" "d1").1
          1 "verified" "Alice" "t2" "d2").1).residents.map
        (fun r => r.current_balance) = [200000])
    ∧ handlePaymentCallback opCfg
        (updatePaymentStatus demoDb 1 "verified" "Alice" "t1" "d1").1
        7 "Alice" "approve_1"
      = .error (.attributeError "get_payment_details") :=
  ⟨by decide, rfl⟩

/-- C3: a created submission's initial status is `COMPLETED` exactly when
the extracted unit id belongs to the valid set, a fee period was
extracted, an amount was extracted and a transaction reference was
extracted; in every other case the status is the review status (spelled
`PENDING_ADMIN_REVIEW` in this code). -/
theorem initial_status_completed_iff (caption ocr : String) (now : Nat) :
    ((handleImageMessage caption ocr now).status = "COMPLETED" ↔
      ((match strOf (matchPattern caption.toList .unitId) with
        | some u => validUnits.contains u
        | none => false) = true
       ∧ (strOf (matchPattern caption.toList .feeMonth)).isSome = true
       ∧ (extractReceiptData ocr).amount.isSome = true
       ∧ (extractReceiptData ocr).transaction_id.isSome = true))
    ∧ ((handleImageMessage caption ocr now).status = "COMPLETED"
       ∨ (handleImageMessage caption ocr now).status = "PENDING_ADMIN_REVIEW") := by
  constructor
  · have base := statusIff
      (match strOf (matchPattern caption.toList .unitId) with
       | some u => validUnits.contains u
       | none => false)
      (strOf (matchPattern caption.toList .feeMonth)).isSome
      ((extractReceiptData ocr).amount.isSome
       && (extractReceiptData ocr).transaction_id.isSome)
    exact base.trans (by simp only [Bool.and_eq_true, and_assoc])
  · have h : ∀ b : Bool,
        (if b then "COMPLETED" else "PENDING_ADMIN_REVIEW") = "COMPLETED"
        ∨ (if b then "COMPLETED" else "PENDING_ADMIN_REVIEW")
          = "PENDING_ADMIN_REVIEW" := by decide
    exact h _

/-- C4: for any sequence of attempt outcomes, `_image_to_text` makes at most
3 HTTP attempts, every inter-attempt sleep doubles the previous delay
(starting from 2 seconds; an empty-text retry sleeps not at all and keeps
the delay), and when every attempt fails or returns empty text the
`OCR_FAILED` sentinel is returned — the function is total, it never
propagates an exception. -/
theorem ocr_gateway_retry_contract (outcomes : List OcrAttempt) :
    (imageToText outcomes).attempts ≤ maxOcrRetries
    ∧ (∃ k, (imageToText outcomes).sleeps
        = (List.range k).map (fun j => initialOcrDelay * 2 ^ j))
    ∧ ((∀ a ∈ outcomes.take maxOcrRetries, badAttempt a) →
        (imageToText outcomes).result = "OCR_FAILED") := by
  refine ⟨?_, ocrGo_sleeps_doubling _ _, fun h => ocrGo_all_bad _ _ h⟩
  calc (imageToText outcomes).attempts ≤ (outcomes.take maxOcrRetries).length :=
        ocrGo_attempts_le _ _
    _ ≤ maxOcrRetries := List.length_take_le _ _

/-- Witness for C4: three transport failures exhaust the retries, sleep 2
then 4 seconds, and yield the sentinel. -/
theorem ocr_gateway_retry_contract_witness :
    (∀ a ∈ ([.err, .err, .err] : List OcrAttempt).take maxOcrRetries, badAttempt a)
    ∧ (imageToText [.err, .err, .err]).result = "OCR_FAILED"
    ∧ (imageToText [.err, .err, .err]).sleeps = [2, 4] :=
  ⟨by decide, (ocr_gateway_retry_contract [.err, .err, .err]).2.2 (by decide),
   by decide⟩

/-- C5 counterexample: a run whose database query raises returns early and
does NOT advance the watermark to the captured time, so not every
`run_report()` execution advances it. -/
theorem watermark_unchanged_on_query_error :
    (runScheduledReport { store := [], lastReportTime := 0 } 5 false true
      "admin").1.lastReportTime ≠ 5 := by decide

/-- C5 (amended): every run whose query succeeds — in particular a run that
finds zero rows — advances the watermark to the time captured at the
run's start; a run whose query raises leaves the state unchanged; and
under a monotonic clock the watermark is non-decreasing across any
sequence of runs. -/
theorem watermark_advance_and_monotonicity (st : ReportState) (now : Nat)
    (credsOk : Bool) (rcpt : String) (runs : List (Nat × Bool × Bool)) :
    (runScheduledReport st now true credsOk rcpt).1.lastReportTime = now
    ∧ (runScheduledReport st now false credsOk rcpt).1 = st
    ∧ (List.Chain (· ≤ ·) st.lastReportTime (runs.map (fun r => r.1)) →
        List.Chain (· ≤ ·) st.lastReportTime (watermarks rcpt st runs)) :=
  ⟨runScheduledReport_wm_true st now credsOk rcpt,
   runScheduledReport_wm_false st now credsOk rcpt,
   watermarks_chain rcpt runs st⟩

/-- Witness for C5: a concrete successful run sets the watermark to 9, and a
two-run sequence with clock 3 ≤ 5 ≤ 7 has a non-decreasing watermark
trace. -/
theorem watermark_advance_and_monotonicity_witness :
    (runScheduledReport demoReportState 9 true true "ops").1.lastReportTime = 9
    ∧ List.Chain (· ≤ ·) demoReportState.lastReportTime
        (watermarks "ops" demoReportState [(5, true, true), (7, false, true)]) :=
  ⟨(watermark_advance_and_monotonicity demoReportState 9 true "ops" []).1,
   (watermark_advance_and_monotonicity demoReportState 9 true "ops"
      [(5, true, true), (7, false, true)]).2.2
     (List.Chain.cons (by decide) (List.Chain.cons (by decide) List.Chain.nil))⟩

/-- C6 counterexample: a submission with status `VERIFIED` newer than the
watermark is in the claimed status set yet is NOT returned by the report
query — the code filters on `status == 'COMPLETED'` only. -/
theorem verified_submission_not_reported :
    verifiedRecord.status ∈ (["VERIFIED", "COMPLETED"] : List String)
    ∧ 0 < verifiedRecord.timestamp
    ∧ verifiedRecord ∈ [verifiedRecord]
    ∧ verifiedRecord ∉ queryCompletedSince [verifiedRecord] 0 := by decide

/-- C6 (amended): the report query returns exactly the submissions whose
status is `COMPLETED` (not `VERIFIED`) with timestamp strictly greater
than the watermark — a record at exactly the watermark is excluded — and
the result is ordered by timestamp ascending. -/
theorem report_query_characterization (store : List PaymentRecord) (t : Nat)
    (r : PaymentRecord) :
    (r ∈ queryCompletedSince store t ↔
      r ∈ store ∧ r.status = "COMPLETED" ∧ t < r.timestamp)
    ∧ (queryCompletedSince store t).Sorted byTimestamp := by
  constructor
  · simp [queryCompletedSince, List.mem_insertionSort, List.mem_filter,
      Bool.and_eq_true, beq_iff_eq, decide_eq_true_eq, and_assoc]
  · exact List.sorted_insertionSort byTimestamp _

/-- C7 counterexample: the CSV header is not the eight claimed columns — it
has ten, including `source_text` and `ocr_status`, which the claimed
header does not contain. -/
theorem report_header_differs_from_spec :
    ((createReportCsv [completedRecord]).1.getD []).head? = some reportFieldnames
    ∧ "source_text" ∈ reportFieldnames
    ∧ "source_text" ∉ specReportHeader
    ∧ reportFieldnames.length ≠ specReportHeader.length := by decide

/-- C7 (amended): when a report run emails, the result set was non-empty,
the attachment starts with the ten-column header of
`create_report_csv`, and the subject names the row count and the end
date (the time range appears only in the body); with credentials
configured, no email is sent exactly when the query returned no rows. -/
theorem report_email_conditions (st : ReportState) (now : Nat) (credsOk : Bool)
    (rcpt : String) :
    (∀ e, (runScheduledReport st now true credsOk rcpt).2 = some e →
       queryCompletedSince st.store st.lastReportTime ≠ []
       ∧ e.attachment.head? = some reportFieldnames
       ∧ e.subject = "Payment Report: "
           ++ toString (queryCompletedSince st.store st.lastReportTime).length
           ++ " New Transactions (" ++ formatDate now ++ ")")
    ∧ (credsOk = true →
        ((runScheduledReport st now true credsOk rcpt).2 = none ↔
          queryCompletedSince st.store st.lastReportTime = [])) := by
  by_cases hps : queryCompletedSince st.store st.lastReportTime = []
  · constructor
    · intro e he
      exfalso
      simp [runScheduledReport, createReportCsv, hps] at he
    · intro _
      simp [runScheduledReport, createReportCsv, hps]
  · have hlen : 0 < (queryCompletedSince st.store st.lastReportTime).length :=
      List.length_pos.mpr hps
    constructor
    · intro e he
      refine ⟨hps, ?_, ?_⟩ <;>
      · simp only [runScheduledReport, createReportCsv,
          List.isEmpty_eq_true, hps, if_false, hlen] at he
        rcases hc : credsOk with _ | _ <;> simp [hc, sendReportEmail] at he <;>
          simp [← he, sendReportEmail]
    · intro hc
      subst hc
      simp [runScheduledReport, createReportCsv, List.isEmpty_eq_true, hps, hlen,
        sendReportEmail]

/-- Witness for C7: the demo state emits an email whose attachment starts
with the ten-column header. -/
theorem report_email_conditions_witness :
    (runScheduledReport demoReportState 9 true true "ops").2.isSome = true
    ∧ ∀ e, (runScheduledReport demoReportState 9 true true "ops").2 = some e →
        e.attachment.head? = some reportFieldnames :=
  ⟨by decide,
   fun e he => ((report_email_conditions demoReportState 9 true "ops").1 e he).2.1⟩

/-- C8: at the database layer, resolving to `rejected` changes no resident
row at all — balances and last-payment dates are untouched, the credit
happens only on `verified` — but the staff-facing reject callback itself
crashes with `AttributeError` on the nonexistent `db.get_payment_details`
before it can update the status or notify the resident (and the
notification key `payment_rejected_resident_notify` does not exist in
`messages.py` either). -/
theorem reject_no_balance_change_and_callback_crash :
    (∀ (db : VillageDb) (pid : Nat) (vb d1 d2 : String),
       ((updatePaymentStatus db pid "rejected" vb d1 d2).1).residents = db.residents)
    ∧ handlePaymentCallback opCfg demoDb 7 "Alice" "reject_1"
        = .error (.attributeError "get_payment_details") := by
  constructor
  · intro db pid vb d1 d2
    unfold updatePaymentStatus
    cases h : db.payments.find? (fun p => p.id == pid) with
    | none => rfl
    | some payment =>
        simp [show (("rejected" : String) == "verified") = false from by decide]
  · rfl

/-- C9: a caller without operator or admin privilege receives exactly the
access-required reply from both the pending-payments listing and the
review callback; the ledger state is returned unchanged and the response
does not depend on the ledger contents at all. -/
theorem permission_denied_blocks_ledger (cfg : BotConfig) (db : VillageDb)
    (userId : Int) (staffName data : String)
    (h : isOperator cfg userId = false) :
    listPendingPayments cfg db userId
      = .ok (db, [.reply (getMessage "staff_access_required"
          (if cfg.thaiStaffIds.contains userId then "th" else "en"))])
    ∧ handlePaymentCallback cfg db userId staffName data
      = .ok (db, [.reply (getMessage "staff_access_required"
          (if cfg.thaiStaffIds.contains userId then "th" else "en"))]) := by
  constructor <;> simp [listPendingPayments, handlePaymentCallback, requireOperator, h]

/-- Witness for C9: under a configuration with no staff, user 5 is denied
with the English access-required message. -/
theorem permission_denied_blocks_ledger_witness :
    isOperator noOpCfg 5 = false
    ∧ listPendingPayments noOpCfg emptyDb 5
        = .ok (emptyDb, [.reply "❌ Operator access required"]) :=
  ⟨by decide,
   ((permission_denied_blocks_ledger noOpCfg emptyDb 5 "s" "d" (by decide)).1).trans
     (by rfl)⟩

/-- C10: every row present after an `add_payment` call either pre-existed or
is the newly inserted row, and the inserted row starts with status
`pending`, no verifier and no verification date — no creation path in
this store assigns a terminal status. -/
theorem add_payment_initial_status_pending (db : VillageDb) (unit : String)
    (amount : Int) (reference : Option String) (fn : String) (tg : Int)
    (lang : String) (now : Nat) (p : PaymentRow)
    (hp : p ∈ (addPayment db unit amount reference fn tg lang now).1.payments) :
    p ∈ db.payments
    ∨ (p.status = "pending" ∧ p.verified_by = none ∧ p.verification_date = none) := by
  simp only [addPayment, List.mem_append, List.mem_singleton] at hp
  rcases hp with h | h
  · exact Or.inl h
  · subst h; exact Or.inr ⟨rfl, rfl, rfl⟩

/-- Witness for C10: the row inserted into the empty database is pending and
unverified. -/
theorem add_payment_initial_status_pending_witness :
    row0 ∈ (addPayment emptyDb "88/02" 5000 none "x.jpg" 3 "en" 4).1.payments
    ∧ (row0 ∈ emptyDb.payments
       ∨ (row0.status = "pending" ∧ row0.verified_by = none
          ∧ row0.verification_date = none)) :=
  ⟨by decide,
   add_payment_initial_status_pending emptyDb "88/02" 5000 none "x.jpg" 3 "en" 4
     row0 (by decide)⟩

end VillagePay
